import Mathlib

/-!
Verification of the Card Gateway Service (`src/server.js`), an Express +
MySQL CRUD backend over a single `cards` table.  The request handlers are
embedded as pure Lean functions: each handler takes the environment
configuration, the (possibly absent) parsed request body and the outcome the
store would report, and returns the query it issues to the store (if any)
together with the HTTP response.  JavaScript truthiness, template-literal
stringification and the `/^\w+$/` identifier check are modelled explicitly.
-/

namespace CardService

/-- A JavaScript value as it can occur in a parsed JSON request body
(plus `undefined` for absent fields). -/
inductive JSValue where
  | undefined : JSValue
  | null : JSValue
  | bool : Bool → JSValue
  | num : Int → JSValue
  | str : String → JSValue
deriving DecidableEq, Repr

/-- JavaScript truthiness: `undefined`, `null`, `false`, `0` and `""` are
falsy, everything else is truthy. -/
def JSValue.truthy : JSValue → Bool
  | .undefined => false
  | .null => false
  | .bool b => b
  | .num n => n != 0
  | .str s => s != ""

/-- Stringification of a value inside a template literal, as in
`Card ${card_name} added successfully`. -/
def JSValue.toDisplayString : JSValue → String
  | .undefined => "undefined"
  | .null => "null"
  | .bool b => if b then "true" else "false"
  | .num n => toString n
  | .str s => s

/-- The fields the handlers destructure from `req.body`; a key absent from
the JSON object destructures to `undefined`. -/
structure Body where
  id : JSValue
  card_name : JSValue
  card_pic : JSValue
deriving DecidableEq, Repr

/-- The empty object `{}`: every destructured field is `undefined`. -/
def Body.empty : Body :=
  ⟨.undefined, .undefined, .undefined⟩

/-- `req.body || {}`: an unparsed (undefined) body is replaced by the empty
object before destructuring. -/
def getBody : Option Body → Body
  | some b => b
  | none => Body.empty

/-- The environment variables the SQL construction reads:
`process.env.DB_NAME` and `process.env.CARDS_TABLE`. -/
structure Env where
  dbName : Option String
  cardsTableEnv : Option String
deriving DecidableEq, Repr

/-- A word character in the sense of the JavaScript regex class
`\w`: ASCII letter, ASCII digit or underscore. -/
def isWordChar (c : Char) : Bool :=
  ('a' ≤ c && c ≤ 'z') || ('A' ≤ c && c ≤ 'Z') || ('0' ≤ c && c ≤ '9') || c == '_'

/-- `/^\w+$/.test s`: `s` is nonempty and consists only of word
characters. -/
def wordTest (s : String) : Bool :=
  !(s == "") && s.data.all isWordChar

/-- `const CARDS_TABLE = process.env.CARDS_TABLE || 'cards'`: an unset or
empty (falsy) environment value defaults to `cards`. -/
def CARDS_TABLE (env : Env) : String :=
  match env.cardsTableEnv with
  | some s => if s == "" then "cards" else s
  | none => "cards"

/-- The schema part of the qualified table name:
`db && /^\w+$/.test(db) ? backtick db backtick dot : empty`. -/
def safeDbPart (db : Option String) : String :=
  match db with
  | some d => if !(d == "") && wordTest d then "`" ++ d ++ "`." else ""
  | none => ""

/-- `fqtn()`: the safely-qualified table name interpolated into every SQL
statement.  A table name failing `/^\w+$/` falls back to the literal
`cards`. -/
def fqtn (env : Env) : String :=
  let safeTable :=
    if wordTest (CARDS_TABLE env) then "`" ++ CARDS_TABLE env ++ "`" else "`cards`"
  safeDbPart env.dbName ++ safeTable

/-- A row of the cards table as returned by the store. -/
structure Card where
  id : Int
  card_name : String
  card_pic : String
deriving DecidableEq, Repr

/-- Outcome the store reports for a mutating statement: either a result with
`affectedRows` and `insertId`, or a thrown error carrying internal detail. -/
inductive MutOutcome where
  | ok : Nat → Int → MutOutcome
  | err : String → MutOutcome
deriving DecidableEq, Repr

/-- Outcome the store reports for the SELECT of all cards. -/
inductive ListOutcome where
  | ok : List Card → ListOutcome
  | err : String → ListOutcome
deriving DecidableEq, Repr

/-- The JSON bodies the service can respond with. -/
inductive RespBody where
  | empty : RespBody
  | health : String → RespBody
  | msg : String → RespBody
  | msgPath : String → String → RespBody
  | created : Int → JSValue → JSValue → String → RespBody
  | updated : String → JSValue → JSValue → JSValue → RespBody
  | rows : List Card → RespBody
deriving DecidableEq, Repr

/-- An HTTP response: status code and JSON body (or empty body). -/
structure Response where
  status : Nat
  body : RespBody
deriving DecidableEq, Repr

/-- A statement handed to `pool.execute`: the SQL text and the bound
parameter list. -/
structure Query where
  sql : String
  params : List JSValue
deriving DecidableEq, Repr

/-- `GET /allcards`: issues the SELECT and returns the rows, or 500 on a
store error. -/
def allcards (env : Env) (store : ListOutcome) : Query × Response :=
  let q : Query := ⟨"SELECT * FROM " ++ fqtn env, []⟩
  match store with
  | .ok rs => (q, ⟨200, .rows rs⟩)
  | .err _ => (q, ⟨500, .msg "Server error for allcards"⟩)

/-- `POST /addcard`: validates `card_name` and `card_pic` for truthiness,
then issues the parameterized INSERT.  Returns the issued query (none when
validation fails) and the response. -/
def addcard (env : Env) (reqBody : Option Body) (store : MutOutcome) :
    Option Query × Response :=
  let b := getBody reqBody
  if !b.card_name.truthy || !b.card_pic.truthy then
    (none, ⟨400, .msg "card_name and card_pic are required"⟩)
  else
    let q : Query :=
      ⟨"INSERT INTO " ++ fqtn env ++ " (card_name, card_pic) VALUES (?, ?)",
       [b.card_name, b.card_pic]⟩
    match store with
    | .ok _ insertId =>
        (some q,
         ⟨201, .created insertId b.card_name b.card_pic
            ("Card " ++ b.card_name.toDisplayString ++ " added successfully")⟩)
    | .err _ =>
        (some q,
         ⟨500, .msg ("Server error - could not add card "
            ++ b.card_name.toDisplayString)⟩)

/-- `PUT /updatecard`: checks `id` first, then `card_name`/`card_pic`, then
issues the parameterized UPDATE and maps `affectedRows` to 404 / 200. -/
def updatecard (env : Env) (reqBody : Option Body) (store : MutOutcome) :
    Option Query × Response :=
  let b := getBody reqBody
  if !b.id.truthy then
    (none, ⟨400, .msg "id is required"⟩)
  else if !b.card_name.truthy || !b.card_pic.truthy then
    (none, ⟨400, .msg "card_name and card_pic are required"⟩)
  else
    let q : Query :=
      ⟨"UPDATE " ++ fqtn env ++ " SET card_name = ?, card_pic = ? WHERE id = ?",
       [b.card_name, b.card_pic, b.id]⟩
    match store with
    | .ok 0 _ =>
        (some q, ⟨404, .msg ("No card found with id " ++ b.id.toDisplayString)⟩)
    | .ok (_ + 1) _ =>
        (some q, ⟨200, .updated "Card updated" b.id b.card_name b.card_pic⟩)
    | .err _ =>
        (some q, ⟨500, .msg "Server error - could not update card"⟩)

/-- `DELETE /deletecard/:id`: defensively checks the path parameter, then
issues the parameterized DELETE and maps `affectedRows` to 404 / 204. -/
def deletecard (env : Env) (pid : String) (store : MutOutcome) :
    Option Query × Response :=
  if pid == "" then
    (none, ⟨400, .msg "id is required"⟩)
  else
    let q : Query := ⟨"DELETE FROM " ++ fqtn env ++ " WHERE id = ?", [.str pid]⟩
    match store with
    | .ok 0 _ =>
        (some q, ⟨404, .msg ("No card found with id " ++ pid)⟩)
    | .ok (_ + 1) _ =>
        (some q, ⟨204, .empty⟩)
    | .err _ =>
        (some q, ⟨500, .msg "Server error - could not delete card"⟩)

/-- HTTP methods the app registers handlers for. -/
inductive Method where
  | get : Method
  | post : Method
  | put : Method
  | delete : Method
deriving DecidableEq, Repr

/-- The remainder of the second list after the first, when the first leads
it; used for route-pattern matching. -/
def dropLeading : List Char → List Char → Option (List Char)
  | [], rest => some rest
  | _ :: _, [] => none
  | p :: ps, c :: cs => if p == c then dropLeading ps cs else none

/-- Express matching of the `/deletecard/:id` pattern: one nonempty path
segment after the literal part, captured as the `id` parameter. -/
def deleteParam (path : String) : Option String :=
  match dropLeading "/deletecard/".data path.data with
  | some rest =>
      if !rest.isEmpty && rest.all (fun c => c != '/') then
        some (String.mk rest)
      else none
  | none => none

/-- Whether the request matches one of the five registered routes. -/
def matchesRoute (m : Method) (path : String) : Bool :=
  (m == .get && path == "/health") ||
  (m == .get && path == "/allcards") ||
  (m == .post && path == "/addcard") ||
  (m == .put && path == "/updatecard") ||
  (m == .delete && (deleteParam path).isSome)

/-- Route dispatch in registration order, ending at the catch-all 404
middleware that echoes the requested path. -/
def dispatch (env : Env) (now : String) (m : Method) (path : String)
    (body : Option Body) (ls : ListOutcome) (ms : MutOutcome) : Response :=
  if m == .get && path == "/health" then
    ⟨200, .health now⟩
  else if m == .get && path == "/allcards" then
    (allcards env ls).2
  else if m == .post && path == "/addcard" then
    (addcard env body ms).2
  else if m == .put && path == "/updatecard" then
    (updatecard env body ms).2
  else
    match m, deleteParam path with
    | .delete, some pid => (deletecard env pid ms).2
    | _, _ => ⟨404, .msgPath "Route not found" path⟩

/-- The store-side semantics of `DELETE FROM cards WHERE id = ?`: the
affected-row count and the remaining rows. -/
def mysqlDelete (rows : List Card) (key : Int) : Nat × List Card :=
  (rows.countP (fun c => c.id == key), rows.filter (fun c => c.id != key))

/-- Whenever `POST /addcard` hands a query to the store, it is the fixed
parameterized INSERT with the two user values bound. -/
theorem addcard_query (env : Env) (b : Option Body) (s : MutOutcome) (q : Query)
    (h : (addcard env b s).1 = some q) :
    q = ⟨"INSERT INTO " ++ fqtn env ++ " (card_name, card_pic) VALUES (?, ?)",
         [(getBody b).card_name, (getBody b).card_pic]⟩ := by
  rcases s with ⟨n, iid⟩ | d <;>
    by_cases hn : (getBody b).card_name.truthy = true <;>
    by_cases hp : (getBody b).card_pic.truthy = true <;>
    simp_all [addcard]

/-- Whenever `PUT /updatecard` hands a query to the store, it is the fixed
parameterized UPDATE with the three user values bound. -/
theorem updatecard_query (env : Env) (b : Option Body) (s : MutOutcome) (q : Query)
    (h : (updatecard env b s).1 = some q) :
    q = ⟨"UPDATE " ++ fqtn env ++ " SET card_name = ?, card_pic = ? WHERE id = ?",
         [(getBody b).card_name, (getBody b).card_pic, (getBody b).id]⟩ := by
  rcases s with ⟨n, iid⟩ | d
  · cases n <;>
      by_cases hi : (getBody b).id.truthy = true <;>
      by_cases hn : (getBody b).card_name.truthy = true <;>
      by_cases hp : (getBody b).card_pic.truthy = true <;>
      simp_all [updatecard]
  · by_cases hi : (getBody b).id.truthy = true <;>
      by_cases hn : (getBody b).card_name.truthy = true <;>
      by_cases hp : (getBody b).card_pic.truthy = true <;>
      simp_all [updatecard]

/-- Whenever `DELETE /deletecard/:id` hands a query to the store, it is the
fixed parameterized DELETE with the path id bound. -/
theorem deletecard_query (env : Env) (pid : String) (s : MutOutcome) (q : Query)
    (h : (deletecard env pid s).1 = some q) :
    q = ⟨"DELETE FROM " ++ fqtn env ++ " WHERE id = ?", [.str pid]⟩ := by
  rcases s with ⟨n, iid⟩ | d
  · cases n <;> by_cases hp : pid = "" <;> simp_all [deletecard]
  · by_cases hp : pid = "" <;> simp_all [deletecard]

/-- A string passing `/^\w+$/` is nonempty. -/
theorem wordTest_ne_empty {s : String} (h : wordTest s = true) : (s == "") = false := by
  cases hb : (s == "")
  · rfl
  · rw [wordTest, hb] at h
    simp at h

/-- When the configured table name passes `/^\w+$/`, it is the table name the
service uses (the `|| 'cards'` default does not kick in). -/
theorem CARDS_TABLE_of_wordTest {db : Option String} {t : String}
    (h : wordTest t = true) : CARDS_TABLE ⟨db, some t⟩ = t := by
  simp [CARDS_TABLE, wordTest_ne_empty h]

/-- The hardcoded default table name passes the word-characters check. -/
theorem wordTest_cards : wordTest "cards" = true := by decide

/-- Claim C1: for Create, Update and Delete, the SQL text handed to the store
is the same for any two requests (it depends only on the environment), and the
user-supplied values card_name, card_pic and id occur only in the
bound-parameter list, never interpolated into the SQL text. -/
theorem C1_sql_independent_of_values (env : Env) (b1 b2 : Option Body)
    (s1 s2 : MutOutcome) (i1 i2 : String) (qa1 qa2 qu1 qu2 qd1 qd2 : Query) :
    ((addcard env b1 s1).1 = some qa1 → (addcard env b2 s2).1 = some qa2 →
       qa1.sql = qa2.sql ∧
       qa1.params = [(getBody b1).card_name, (getBody b1).card_pic]) ∧
    ((updatecard env b1 s1).1 = some qu1 → (updatecard env b2 s2).1 = some qu2 →
       qu1.sql = qu2.sql ∧
       qu1.params = [(getBody b1).card_name, (getBody b1).card_pic, (getBody b1).id]) ∧
    ((deletecard env i1 s1).1 = some qd1 → (deletecard env i2 s2).1 = some qd2 →
       qd1.sql = qd2.sql ∧ qd1.params = [JSValue.str i1]) := by
  refine ⟨fun h1 h2 => ?_, fun h1 h2 => ?_, fun h1 h2 => ?_⟩
  · rw [addcard_query env b1 s1 qa1 h1, addcard_query env b2 s2 qa2 h2]
    exact ⟨rfl, rfl⟩
  · rw [updatecard_query env b1 s1 qu1 h1, updatecard_query env b2 s2 qu2 h2]
    exact ⟨rfl, rfl⟩
  · rw [deletecard_query env i1 s1 qd1 h1, deletecard_query env i2 s2 qd2 h2]
    exact ⟨rfl, rfl⟩

/-- Witness for C1: two Create requests, one carrying an SQL-injection
attempt, produce the identical INSERT text, and the malicious value stays in
the parameter list. -/
theorem C1_witness :
    ({ sql := "INSERT INTO `cards` (card_name, card_pic) VALUES (?, ?)",
       params := [JSValue.str "Ace", JSValue.str "a.png"] : Query }).sql =
      ({ sql := "INSERT INTO `cards` (card_name, card_pic) VALUES (?, ?)",
         params := [JSValue.str "x'); DROP TABLE cards; --",
                    JSValue.str "y"] : Query }).sql ∧
    ({ sql := "INSERT INTO `cards` (card_name, card_pic) VALUES (?, ?)",
       params := [JSValue.str "Ace", JSValue.str "a.png"] : Query }).params =
      [JSValue.str "Ace", JSValue.str "a.png"] :=
  (C1_sql_independent_of_values ⟨none, none⟩
      (some ⟨.undefined, .str "Ace", .str "a.png"⟩)
      (some ⟨.undefined, .str "x'); DROP TABLE cards; --", .str "y"⟩)
      (.ok 1 1) (.ok 1 2) "1" "2"
      ⟨"INSERT INTO `cards` (card_name, card_pic) VALUES (?, ?)",
       [JSValue.str "Ace", JSValue.str "a.png"]⟩
      ⟨"INSERT INTO `cards` (card_name, card_pic) VALUES (?, ?)",
       [JSValue.str "x'); DROP TABLE cards; --", JSValue.str "y"]⟩
      ⟨"", []⟩ ⟨"", []⟩ ⟨"", []⟩ ⟨"", []⟩).1 (by decide) (by decide)

/-- Claim C2: a configured table name passing the word-characters pattern is
interpolated into the qualified name; one failing it is replaced by the
default `cards` and has no influence on the SQL text.  The same holds for the
optional database/schema name: safe names are interpolated, unsafe ones leave
the SQL exactly as if no database name were configured. -/
theorem C2_identifier_safety (db : Option String) (t : String) :
    (wordTest t = true →
       fqtn ⟨db, some t⟩ = safeDbPart db ++ ("`" ++ t ++ "`")) ∧
    (wordTest t = false →
       fqtn ⟨db, some t⟩ = safeDbPart db ++ "`cards`" ∧
       fqtn ⟨db, some t⟩ = fqtn ⟨db, none⟩) ∧
    (∀ d, db = some d → wordTest d = true →
       fqtn ⟨db, some t⟩ = "`" ++ d ++ "`." ++ fqtn ⟨none, some t⟩) ∧
    (∀ d, db = some d → wordTest d = false →
       fqtn ⟨db, some t⟩ = fqtn ⟨none, some t⟩) := by
  have hlit : ("`" ++ "cards" ++ "`" : String) = "`cards`" := by decide
  refine ⟨?_, ?_, ?_, ?_⟩
  · intro ht
    simp [fqtn, CARDS_TABLE_of_wordTest ht, ht]
  · intro ht
    by_cases h0 : t = ""
    · subst h0
      constructor
      · simp [fqtn, CARDS_TABLE, wordTest_cards, hlit]
      · simp [fqtn, CARDS_TABLE]
    · have h0' : (t == "") = false := by simp [h0]
      constructor
      · simp [fqtn, CARDS_TABLE, h0', ht]
      · simp [fqtn, CARDS_TABLE, h0', ht, wordTest_cards, hlit]
  · intro d hd hw
    subst hd
    have h0 : (d == "") = false := wordTest_ne_empty hw
    simp [fqtn, safeDbPart, CARDS_TABLE, h0, hw, String.append_assoc]
  · intro d hd hw
    subst hd
    simp [fqtn, safeDbPart, CARDS_TABLE, hw]

/-- Witness for C2: a safe table name is interpolated, an unsafe one falls
back to the default, a safe database name is interpolated, an unsafe one is
dropped. -/
theorem C2_witness :
    fqtn ⟨some "mydb", some "deck"⟩ = safeDbPart (some "mydb") ++ ("`" ++ "deck" ++ "`") ∧
    fqtn ⟨some "mydb", some "bad name"⟩ = safeDbPart (some "mydb") ++ "`cards`" ∧
    fqtn ⟨some "mydb", some "deck"⟩ = "`" ++ "mydb" ++ "`." ++ fqtn ⟨none, some "deck"⟩ ∧
    fqtn ⟨some "my db", some "deck"⟩ = fqtn ⟨none, some "deck"⟩ :=
  ⟨(C2_identifier_safety (some "mydb") "deck").1 (by decide),
   ((C2_identifier_safety (some "mydb") "bad name").2.1 (by decide)).1,
   (C2_identifier_safety (some "mydb") "deck").2.2.1 "mydb" rfl (by decide),
   (C2_identifier_safety (some "my db") "deck").2.2.2 "my db" rfl (by decide)⟩

/-- Claim C3: an Update request with truthy id, card_name and card_pic gets
404 when the store reports zero affected rows, and otherwise 200 with
`message: Card updated` and the request's own id, card_name and card_pic
echoed back. -/
theorem C3_update_result (env : Env) (b : Option Body) (n : Nat) (iid : Int)
    (hid : (getBody b).id.truthy = true)
    (hname : (getBody b).card_name.truthy = true)
    (hpic : (getBody b).card_pic.truthy = true) :
    (updatecard env b (.ok n iid)).2 =
      if n = 0 then
        ⟨404, .msg ("No card found with id " ++ (getBody b).id.toDisplayString)⟩
      else
        ⟨200, .updated "Card updated" (getBody b).id (getBody b).card_name
                (getBody b).card_pic⟩ := by
  cases n <;> simp [updatecard, hid, hname, hpic]

/-- Witness for C3: the spec's own example update succeeds with the echoed
values. -/
theorem C3_witness :
    (updatecard ⟨none, none⟩ (some ⟨.num 1, .str "Ace2", .str "ace2.png"⟩) (.ok 1 0)).2 =
      ⟨200, .updated "Card updated" (.num 1) (.str "Ace2") (.str "ace2.png")⟩ := by
  have h := C3_update_result ⟨none, none⟩ (some ⟨.num 1, .str "Ace2", .str "ace2.png"⟩)
      1 0 (by decide) (by decide) (by decide)
  simpa using h

/-- Claim C4: a Delete request with a present id gets 404 when zero rows were
affected and 204 with an empty body otherwise; deleting an existing card once
yields 204 and deleting the same id again yields 404, by the store's
affected-row semantics of DELETE. -/
theorem C4_delete_result (env : Env) (pid : String) (hp : ¬pid = "")
    (n : Nat) (iid1 iid2 iid3 : Int) (rows : List Card) (cid : Int)
    (hex : ∃ c ∈ rows, c.id = cid) :
    (deletecard env pid (.ok 0 iid1)).2 =
      ⟨404, .msg ("No card found with id " ++ pid)⟩ ∧
    (deletecard env pid (.ok (n + 1) iid1)).2 = ⟨204, .empty⟩ ∧
    (deletecard env pid (.ok (mysqlDelete rows cid).1 iid2)).2 = ⟨204, .empty⟩ ∧
    (deletecard env pid (.ok (mysqlDelete (mysqlDelete rows cid).2 cid).1 iid3)).2 =
      ⟨404, .msg ("No card found with id " ++ pid)⟩ := by
  have h1 : 0 < (mysqlDelete rows cid).1 := by
    simp only [mysqlDelete]
    rw [List.countP_pos_iff]
    obtain ⟨c, hc, hcid⟩ := hex
    exact ⟨c, hc, by simp [hcid]⟩
  have h2 : (mysqlDelete (mysqlDelete rows cid).2 cid).1 = 0 := by
    simp only [mysqlDelete]
    rw [List.countP_eq_zero]
    intro c hc
    have := List.of_mem_filter hc
    simpa using this
  refine ⟨by simp [deletecard, hp], by simp [deletecard, hp], ?_, ?_⟩
  · rcases hk : (mysqlDelete rows cid).1 with _ | m
    · omega
    · simp [deletecard, hp]
  · rw [h2]
    simp [deletecard, hp]

/-- Witness for C4: on a one-card table, the first delete answers 204 and the
repeated delete answers 404. -/
theorem C4_witness :
    (deletecard ⟨none, none⟩ "1" (.ok (mysqlDelete [⟨1, "a", "b"⟩] 1).1 0)).2 =
      ⟨204, .empty⟩ ∧
    (deletecard ⟨none, none⟩ "1"
        (.ok (mysqlDelete (mysqlDelete [⟨1, "a", "b"⟩] 1).2 1).1 0)).2 =
      ⟨404, .msg ("No card found with id " ++ "1")⟩ := by
  have h := C4_delete_result ⟨none, none⟩ "1" (by decide) 0 0 0 0
      [⟨1, "a", "b"⟩] 1 (by decide)
  exact ⟨h.2.2.1, h.2.2.2⟩

/-- Claim C5: a Create request missing card_name or card_pic (or carrying a
falsy value for either) is answered 400 with the descriptive message and no
query is handed to the store. -/
theorem C5_create_validation (env : Env) (b : Option Body) (st : MutOutcome)
    (h : (getBody b).card_name.truthy = false ∨ (getBody b).card_pic.truthy = false) :
    addcard env b st = (none, ⟨400, .msg "card_name and card_pic are required"⟩) := by
  rcases h with h | h <;> simp [addcard, h]

/-- Witness for C5: creating with only card_pic present is rejected without a
store query. -/
theorem C5_witness :
    addcard ⟨none, none⟩ (some ⟨.undefined, .undefined, .str "x"⟩) (.ok 1 1) =
      (none, ⟨400, .msg "card_name and card_pic are required"⟩) :=
  C5_create_validation ⟨none, none⟩ (some ⟨.undefined, .undefined, .str "x"⟩)
    (.ok 1 1) (Or.inl (by decide))

/-- Claim C6: Update validation checks id first (400 `id is required`, with no
store query, whatever the other fields are) and only then the two content
fields (400 `card_name and card_pic are required`, with no store query). -/
theorem C6_update_validation_order (env : Env) (b : Option Body) (st : MutOutcome) :
    ((getBody b).id.truthy = false →
       updatecard env b st = (none, ⟨400, .msg "id is required"⟩)) ∧
    ((getBody b).id.truthy = true →
       ((getBody b).card_name.truthy = false ∨ (getBody b).card_pic.truthy = false) →
       updatecard env b st = (none, ⟨400, .msg "card_name and card_pic are required"⟩)) := by
  constructor
  · intro h
    simp [updatecard, h]
  · intro hid h
    rcases h with h | h <;> simp [updatecard, hid, h]

/-- Witness for C6: a body missing both id and card_pic gets the id-specific
400; a body with an id but no card_pic gets the content-field 400. -/
theorem C6_witness :
    updatecard ⟨none, none⟩ (some ⟨.undefined, .str "Ace", .undefined⟩) (.ok 1 1) =
      (none, ⟨400, .msg "id is required"⟩) ∧
    updatecard ⟨none, none⟩ (some ⟨.num 3, .str "Ace", .undefined⟩) (.ok 1 1) =
      (none, ⟨400, .msg "card_name and card_pic are required"⟩) :=
  ⟨(C6_update_validation_order ⟨none, none⟩
      (some ⟨.undefined, .str "Ace", .undefined⟩) (.ok 1 1)).1 (by decide),
   (C6_update_validation_order ⟨none, none⟩
      (some ⟨.num 3, .str "Ace", .undefined⟩) (.ok 1 1)).2 (by decide)
      (Or.inr (by decide))⟩

/-- Claim C7: every store-facing operation answers a store error with a 500
whose body is independent of the internal error detail (so nothing internal
leaks), and List yields no partial results on error. -/
theorem C7_store_error_500 (env : Env) (b : Option Body) (pid : String) (d1 d2 : String) :
    (allcards env (.err d1)).2 = ⟨500, .msg "Server error for allcards"⟩ ∧
    (allcards env (.err d1)).2 = (allcards env (.err d2)).2 ∧
    ((addcard env b (.err d1)).1.isSome = true →
       (addcard env b (.err d1)).2 =
         ⟨500, .msg ("Server error - could not add card " ++
            (getBody b).card_name.toDisplayString)⟩) ∧
    (addcard env b (.err d1)).2 = (addcard env b (.err d2)).2 ∧
    ((updatecard env b (.err d1)).1.isSome = true →
       (updatecard env b (.err d1)).2 =
         ⟨500, .msg "Server error - could not update card"⟩) ∧
    (updatecard env b (.err d1)).2 = (updatecard env b (.err d2)).2 ∧
    ((deletecard env pid (.err d1)).1.isSome = true →
       (deletecard env pid (.err d1)).2 =
         ⟨500, .msg "Server error - could not delete card"⟩) ∧
    (deletecard env pid (.err d1)).2 = (deletecard env pid (.err d2)).2 := by
  refine ⟨rfl, rfl, ?_, ?_, ?_, ?_, ?_, ?_⟩
  · intro h
    by_cases hn : (getBody b).card_name.truthy = true <;>
      by_cases hp : (getBody b).card_pic.truthy = true <;>
      simp_all [addcard]
  · by_cases hn : (getBody b).card_name.truthy = true <;>
      by_cases hp : (getBody b).card_pic.truthy = true <;>
      simp [addcard, hn, hp]
  · intro h
    by_cases hi : (getBody b).id.truthy = true <;>
      by_cases hn : (getBody b).card_name.truthy = true <;>
      by_cases hp : (getBody b).card_pic.truthy = true <;>
      simp_all [updatecard]
  · by_cases hi : (getBody b).id.truthy = true <;>
      by_cases hn : (getBody b).card_name.truthy = true <;>
      by_cases hp : (getBody b).card_pic.truthy = true <;>
      simp [updatecard, hi, hn, hp]
  · intro h
    by_cases hp : pid = "" <;> simp_all [deletecard]
  · by_cases hp : pid = "" <;> simp [deletecard, hp]

/-- Witness for C7: each of the four operations maps a concrete store error
to its 500 response. -/
theorem C7_witness :
    (allcards ⟨none, none⟩ (.err "boom")).2 = ⟨500, .msg "Server error for allcards"⟩ ∧
    (addcard ⟨none, none⟩ (some ⟨.undefined, .str "Ace", .str "a.png"⟩) (.err "boom")).2 =
      ⟨500, .msg ("Server error - could not add card " ++
        (getBody (some ⟨.undefined, .str "Ace", .str "a.png"⟩)).card_name.toDisplayString)⟩ ∧
    (updatecard ⟨none, none⟩ (some ⟨.num 1, .str "Ace", .str "a.png"⟩) (.err "boom")).2 =
      ⟨500, .msg "Server error - could not update card"⟩ ∧
    (deletecard ⟨none, none⟩ "1" (.err "boom")).2 =
      ⟨500, .msg "Server error - could not delete card"⟩ := by
  have ha := C7_store_error_500 ⟨none, none⟩
      (some ⟨.undefined, .str "Ace", .str "a.png"⟩) "1" "boom" "other"
  have hu := C7_store_error_500 ⟨none, none⟩
      (some ⟨.num 1, .str "Ace", .str "a.png"⟩) "1" "boom" "other"
  exact ⟨ha.1, ha.2.2.1 (by decide), hu.2.2.2.2.1 (by decide),
    hu.2.2.2.2.2.2.1 (by decide)⟩

/-- Claim C8: a request matching none of the five registered routes falls
through to the catch-all middleware and is answered 404 with
`Route not found` and the literal requested path. -/
theorem C8_unmatched_route_404 (env : Env) (now : String) (m : Method) (path : String)
    (body : Option Body) (ls : ListOutcome) (ms : MutOutcome)
    (h : matchesRoute m path = false) :
    dispatch env now m path body ls ms = ⟨404, .msgPath "Route not found" path⟩ := by
  unfold matchesRoute at h
  cases m <;> rcases hd : deleteParam path with _ | pid <;> simp_all [dispatch]

/-- Witness for C8: `GET /nonexistent` is answered by the catch-all 404 with
the requested path echoed. -/
theorem C8_witness :
    dispatch ⟨none, none⟩ "2026-10-11T00:00:00.000Z" .get "/nonexistent" none
      (.ok []) (.ok 0 0) = ⟨404, .msgPath "Route not found" "/nonexistent"⟩ :=
  C8_unmatched_route_404 ⟨none, none⟩ "2026-10-11T00:00:00.000Z" .get "/nonexistent"
    none (.ok []) (.ok 0 0) (by decide)

/-- Claim C9: an Update body whose id field is present but falsy (0, empty
string, null or false) is rejected 400 `id is required`: the check is on
truthiness, not key presence. -/
theorem C9_update_falsy_id_rejected (env : Env) (st : MutOutcome)
    (name pic v : JSValue)
    (hv : v = .num 0 ∨ v = .str "" ∨ v = .null ∨ v = .bool false) :
    updatecard env (some ⟨v, name, pic⟩) st = (none, ⟨400, .msg "id is required"⟩) := by
  have hf : v.truthy = false := by
    rcases hv with h | h | h | h <;> subst h <;> rfl
  simp [updatecard, getBody, hf]

/-- Witness for C9: an update body with `id: 0` and valid content fields is
still rejected with the id-specific 400. -/
theorem C9_witness :
    updatecard ⟨none, none⟩ (some ⟨.num 0, .str "Ace", .str "a.png"⟩) (.ok 1 1) =
      (none, ⟨400, .msg "id is required"⟩) :=
  C9_update_falsy_id_rejected ⟨none, none⟩ (.ok 1 1) (.str "Ace") (.str "a.png")
    (.num 0) (Or.inl rfl)

/-- Claim C10: with an absent (unparsed) request body, `req.body || \x7b\x7d`
yields the empty object, destructuring yields undefined fields, and Create and
Update answer with their ordinary 400 validation responses instead of
crashing. -/
theorem C10_absent_body_rejected_not_crash (env : Env) (st : MutOutcome) :
    getBody none = Body.empty ∧
    Body.empty.id = .undefined ∧
    Body.empty.card_name = .undefined ∧
    Body.empty.card_pic = .undefined ∧
    addcard env none st = (none, ⟨400, .msg "card_name and card_pic are required"⟩) ∧
    updatecard env none st = (none, ⟨400, .msg "id is required"⟩) := by
  refine ⟨rfl, rfl, rfl, rfl, ?_, ?_⟩
  · simp [addcard, getBody, Body.empty, JSValue.truthy]
  · simp [updatecard, getBody, Body.empty, JSValue.truthy]

end CardService
